import Mathlib

/-!
Verification of the drome IPC bridge (renderer side) against its
natural-language specification.

Embedded components:
* `IpcRendererShim` (listener registry) — `on`, `once`, `removeListener`,
  `removeAllListeners` and the per-record lifecycle under an asynchronous
  subscription promise;
* the invocation façade (`createWindowApi` in `bridge/api.ts`) —
  `safeInvoke`, `tracedInvoke`, plain pass-through methods and
  `getPathForFile`;
* the capability proxy (`createNotImplementedProxy` / `createApiProxy`
  in `bridge/boot.ts`);
* the browser-fallback transport from `bridge/boot.ts`.
-/

namespace Drome

/-! ## Listener record lifecycle (IpcRendererShim)

The shim's `on(channel, listener)`:
```
const unlistenPromise = this.impl.listen(channel, (e) => { listener(null, e.payload) })
const rec = { channel, listener, unlistenPromise, removed: false }
this.listeners.push(rec)
unlistenPromise
  .then((unlisten) => { rec.unlisten = unlisten
                        if (rec.removed) { try { unlisten() } catch {} } })
  .catch(() => { rec.removed = true })
return () => this.off(channel, listener)
```
and `removeListener`, for each record matching `(channel, listener)`:
```
rec.removed = true
const unlisten = rec.unlisten
if (unlisten) { try { unlisten() } catch {} }
else { rec.unlistenPromise.then((u) => u()).catch(() => {}) }
```
(the record is dropped from `this.listeners` either way; `once` has the
identical removal structure).

We model one record's lifecycle as a state machine driven by four actions:
the remover being invoked, the subscription promise resolving or rejecting,
and the transport delivering an event to the handler registered with
`impl.listen`.  The two continuations that can sit on the subscription
promise are `contA` (attached by `on` itself) and `contB` (attached by
`removeListener` when the handle has not resolved yet).  `busActive` models
the in-memory bus of `bridge/boot.ts`, which registers the handler
synchronously inside `listen` and stops delivering once the returned
unlisten function has run.
-/

inductive PromiseState where
  | pending
  | resolvedP
  | rejectedP
deriving DecidableEq, Repr

inductive Cont where
  | contA
  | contB
deriving DecidableEq, Repr

structure LState where
  promise : PromiseState
  removed : Bool
  hasUnlisten : Bool
  inList : Bool
  busActive : Bool
  conts : List Cont
  listenerCalls : Nat
  unlistenCalls : Nat
  isOnce : Bool
deriving DecidableEq, Repr

/-- State of a record immediately after `on(channel, listener)` returned,
with the browser-fallback adapter of `bridge/boot.ts` (its `listen` adds the
handler to the bus synchronously, so events can already be delivered).
`isOnce` records whether the subscription went through the adapter's `once`
wrapper, whose delivery behavior differs (see `deliverL`). -/
def initL : LState :=
  { promise := PromiseState.pending
    removed := false
    hasUnlisten := false
    inList := true
    busActive := true
    conts := [Cont.contA]
    listenerCalls := 0
    unlistenCalls := 0
    isOnce := false }

/-- State of a record immediately after `once(channel, listener)` returned,
with the browser-fallback adapter of `bridge/boot.ts`.  The shim-side code
of `once` is identical to `on`; the difference sits in the adapter's `once`
wrapper, which self-unsubscribes on first delivery. -/
def initOnceL : LState := { initL with isOnce := true }

/-- One invocation of the native unsubscribe handle.  Every call site in the
source wraps the call (`try { unlisten() } catch {}` or `.catch(() => {})`),
so a throwing handle never surfaces; the embedding only counts the call.
After the call the bus no longer delivers to the handler. -/
def callUnlisten (s : LState) : LState :=
  { s with unlistenCalls := s.unlistenCalls + 1, busActive := false }

/-- Run one continuation attached to the subscription promise.
`contA` is `(unlisten) => { rec.unlisten = unlisten; if (rec.removed) { try { unlisten() } catch {} } }`;
`contB` is `(u) => u()` with a trailing `.catch(() => {})`. -/
def runCont : Cont → LState → LState
  | Cont.contA, s =>
      let s' := { s with hasUnlisten := true }
      if s'.removed then callUnlisten s' else s'
  | Cont.contB, s => callUnlisten s

/-- The subscription promise resolves: all queued continuations run in
attach order. -/
def resolveL (s : LState) : LState :=
  if s.promise = PromiseState.pending then
    s.conts.foldl (fun st c => runCont c st)
      { s with promise := PromiseState.resolvedP, conts := [] }
  else s

/-- The subscription promise rejects: `on`'s `.catch(() => { rec.removed = true })`
runs, `removeListener`'s queued `.then((u) => u())` is skipped and its
`.catch(() => {})` absorbs the rejection.  A failed registration delivers no
events. -/
def rejectL (s : LState) : LState :=
  if s.promise = PromiseState.pending then
    { s with promise := PromiseState.rejectedP, removed := true,
             conts := [], busActive := false }
  else s

/-- The remover (`() => this.off(channel, listener)`) is invoked: if the
record is still in `this.listeners` it is marked removed and dropped, and
the unsubscribe handle is either called now (if resolved) or a `contB`
continuation is queued on the promise. -/
def removeL (s : LState) : LState :=
  if s.inList then
    let s' := { s with removed := true, inList := false }
    if s'.hasUnlisten then callUnlisten s'
    else { s' with conts := s'.conts ++ [Cont.contB] }
  else s

/-- The transport delivers an event on the record's channel.  The handler
the shim registers is `(e) => listener(null, e.payload)` — it has no
`removed` guard, so the caller-supplied listener fires whenever the bus
still holds the handler.  For a subscription made through the browser
adapter's `once` wrapper (`bridge/boot.ts`):
```
once: async (event, handler) => {
  let off
  off = on(event, (payload) => { off?.(); handler({ payload }) })
  return off
}
```
the first delivery itself invokes the returned unlisten handle (`off` is
exactly the function the subscription promise resolves with) before firing
the handler, and delivery stops afterwards. -/
def deliverL (s : LState) : LState :=
  if s.busActive then
    if s.isOnce then
      { s with listenerCalls := s.listenerCalls + 1,
               unlistenCalls := s.unlistenCalls + 1,
               busActive := false }
    else { s with listenerCalls := s.listenerCalls + 1 }
  else s

inductive LAct where
  | removeA
  | resolveA
  | rejectA
  | deliverA
deriving DecidableEq, Repr

def lstep : LAct → LState → LState
  | LAct.removeA, s => removeL s
  | LAct.resolveA, s => resolveL s
  | LAct.rejectA, s => rejectL s
  | LAct.deliverA, s => deliverL s

/-- Run a sequence of actions from the post-`on` state. -/
def lrun (acts : List LAct) : LState :=
  acts.foldl (fun s a => lstep a s) initL

/-- Run a sequence of actions from the post-`once` state. -/
def lrunOnce (acts : List LAct) : LState :=
  acts.foldl (fun s a => lstep a s) initOnceL

/-- Extra unsubscribe-handle invocations the adapter's `once` wrapper can
contribute: one, on first delivery. -/
def onceBit (s : LState) : Nat := if s.isOnce then 1 else 0

/-- Invariant of the record lifecycle, preserved by every action. -/
def LInv (s : LState) : Prop :=
  (s.busActive = true → s.unlistenCalls = 0) ∧
  (s.removed = false → s.inList = true ∧ s.unlistenCalls ≤ onceBit s) ∧
  (s.promise = PromiseState.pending →
      s.hasUnlisten = false ∧ s.unlistenCalls ≤ onceBit s ∧
      (s.removed = true → s.conts = [Cont.contA, Cont.contB] ∧ s.inList = false) ∧
      (s.removed = false → s.conts = [Cont.contA])) ∧
  (s.promise = PromiseState.resolvedP →
      s.hasUnlisten = true ∧
      (s.removed = true →
        (1 ≤ s.unlistenCalls ∧ s.unlistenCalls ≤ 2 + onceBit s) ∧
        s.inList = false)) ∧
  (s.promise = PromiseState.rejectedP →
      s.removed = true ∧ s.hasUnlisten = false ∧ s.unlistenCalls ≤ onceBit s ∧
      s.busActive = false)

/-! ## The shim's listener array

`IpcRendererShim` keeps `listeners : ListenerRecord[]`.  `removeListener`
scans the whole array and processes every record whose `(channel, listener)`
pair matches, so registering the same callback twice on the same channel
creates two records that one remover call tears down together.  We keep all
records ever created (in creation order) and track array membership with the
per-record `inList` flag; a record's dynamics are exactly the single-record
machine above.  Channels are strings and callback identity is a `Nat` tag
(JS compares listeners with `===`). -/

structure TRec where
  channel : String
  listener : Nat
  st : LState
deriving DecidableEq, Repr

/-- The shim's state: every record ever pushed, in creation order. -/
abbrev ShimState := List TRec

/-- One call of `on(channel, listener)`: a fresh record is pushed. -/
def onOp (channel : String) (listener : Nat) (recs : ShimState) : ShimState :=
  recs ++ [{ channel := channel, listener := listener, st := initL }]

/-- One call of `once(channel, listener)`: the shim-side record creation is
identical; the record is marked `isOnce` because the adapter's `once`
wrapper self-unsubscribes on first delivery. -/
def onceOp (channel : String) (listener : Nat) (recs : ShimState) : ShimState :=
  recs ++ [{ channel := channel, listener := listener, st := initOnceL }]

/-- One call of `removeListener(channel, listener)` (also reached via `off`
and via the remover returned by `on`): every record in the array matching
the pair is marked removed, torn down (now or on promise resolution) and
dropped from the array. -/
def removeListenerOp (channel : String) (listener : Nat) (recs : ShimState) :
    ShimState :=
  recs.map fun r =>
    if r.channel = channel ∧ r.listener = listener then
      { r with st := removeL r.st }
    else r

/-- The subscription promise of the i-th record (in creation order)
settles successfully. -/
def resolveOp (i : Nat) (recs : ShimState) : ShimState :=
  match recs.get? i with
  | some r => recs.set i { r with st := resolveL r.st }
  | none => recs

/-- The transport emits an event on a channel: the handler of every record
subscribed on that channel runs (the bus dispatches to each registered
handler, whether or not the shim still lists the record). -/
def deliverOp (channel : String) (recs : ShimState) : ShimState :=
  recs.map fun r =>
    if r.channel = channel then { r with st := deliverL r.st } else r

/-! ## Invocation façade (`bridge/api.ts`)

JS values as far as the bridge inspects them; the transport carries an
opaque value or a failure. -/

inductive Value where
  | vNull
  | vUndefined
  | vBool (b : Bool)
  | vInt (n : Int)
  | vStr (s : String)
  | vArr (elems : List Value)
  | vObj (fields : List (String × Value))

/-- JS `x ?? y` substitutes exactly for `null` and `undefined`. -/
def Value.isNullish : Value → Bool
  | Value.vNull => true
  | Value.vUndefined => true
  | _ => false

/-- The channel identifiers (members of the external `IpcChannel` enum)
reached by the methods the claims name. -/
inductive IpcChannel where
  | App_Info
  | App_CheckForUpdate
  | Backup_ListWebdavFiles
  | Mcp_ListPrompts
  | Mcp_ListTools
  | File_Delete
  | Config_Get
deriving DecidableEq, Repr

/-- A transport: one request/response call against the host.  `Except`
models the promise settling (resolved value or rejection reason). -/
def Transport := IpcChannel → List Value → Except String Value

/-- `IpcRendererShim.invoke(channel, ...args)` forwards `(channel, args)`
to the underlying adapter unchanged:
`async invoke(channel, ...args) { return this.impl.invoke(channel, args) }`. -/
def shimInvoke (impl : Transport) (channel : IpcChannel) (args : List Value) :
    Except String Value :=
  impl channel args

/-- `safeInvoke` from `createWindowApi`:
```
const safeInvoke = async (channel, fallback, ...args) => {
  try { const result = await invoke(channel, ...args)
        return (result ?? fallback) }
  catch { return fallback }
}
``` -/
def safeInvoke (invoke : Transport) (channel : IpcChannel) (fallback : Value)
    (args : List Value) : Value :=
  match invoke channel args with
  | Except.error _ => fallback
  | Except.ok result => if result.isNullish then fallback else result

/-- `checkForUpdate: () => safeInvoke(IpcChannel.App_CheckForUpdate, { updateInfo: null })`. -/
def checkForUpdate (invoke : Transport) : Value :=
  safeInvoke invoke IpcChannel.App_CheckForUpdate
    (Value.vObj [("updateInfo", Value.vNull)]) []

/-- `backup.listWebdavFiles: (webdavConfig) => safeInvoke(IpcChannel.Backup_ListWebdavFiles, [], webdavConfig)`. -/
def backupListWebdavFiles (invoke : Transport) (webdavConfig : Value) : Value :=
  safeInvoke invoke IpcChannel.Backup_ListWebdavFiles (Value.vArr [])
    [webdavConfig]

/-- `mcp.listPrompts: (server) => safeInvoke(IpcChannel.Mcp_ListPrompts, [], server)`. -/
def mcpListPrompts (invoke : Transport) (server : Value) : Value :=
  safeInvoke invoke IpcChannel.Mcp_ListPrompts (Value.vArr []) [server]

/-- The browser-fallback adapter of `bridge/boot.ts`:
`invoke: async (_channel, _args) => undefined` — it always resolves with
`undefined`. -/
def browserInvoke : Transport := fun _ _ => Except.ok Value.vUndefined

/-- The one invoke call a façade method issues: channel plus the exact
argument list handed to the transport. -/
structure Call where
  channel : IpcChannel
  args : List Value

/-- The tagged trailing trace argument `{ type: 'trace', context: spanContext }`. -/
def traceArg (context : Value) : Value :=
  Value.vObj [("type", Value.vStr "trace"), ("context", context)]

/-- `tracedInvoke` from `createWindowApi`, described by the single invoke
call it issues:
```
const tracedInvoke = (channel, spanContext, ...args) => {
  if (spanContext) { return invoke(channel, ...args, { type: 'trace', context: spanContext }) }
  return invoke(channel, ...args)
}
``` -/
def tracedInvokeCall (channel : IpcChannel) (spanContext : Option Value)
    (args : List Value) : Call :=
  match spanContext with
  | some context => { channel := channel, args := args ++ [traceArg context] }
  | none => { channel := channel, args := args }

/-- `mcp.listTools: (server, context) => tracedInvoke(IpcChannel.Mcp_ListTools, context, server)`,
as the invoke call it issues. -/
def mcpListToolsCall (server : Value) (context : Option Value) : Call :=
  tracedInvokeCall IpcChannel.Mcp_ListTools context [server]

/-- Plain pass-through `getAppInfo: () => invoke(IpcChannel.App_Info)`. -/
def getAppInfo (invoke : Transport) : Except String Value :=
  invoke IpcChannel.App_Info []

/-- Plain pass-through `file.delete: (fileId) => invoke(IpcChannel.File_Delete, fileId)`. -/
def fileDelete (invoke : Transport) (fileId : Value) : Except String Value :=
  invoke IpcChannel.File_Delete [fileId]

/-- Plain pass-through `config.get: (key) => invoke(IpcChannel.Config_Get, key)`. -/
def configGet (invoke : Transport) (key : Value) : Except String Value :=
  invoke IpcChannel.Config_Get [key]

/-! ## Capability proxy (`bridge/boot.ts`) -/

/-- The top-level keys of the object returned by `createWindowApi`
(the invocation façade), in source order. -/
def apiKeys : List String :=
  ["getAppInfo", "getDiskInfo", "reload", "quit", "setProxy",
   "checkForUpdate", "quitAndInstall", "setLanguage", "setEnableSpellCheck",
   "setSpellCheckLanguages", "setLaunchOnBoot", "setLaunchToTray", "setTray",
   "setTrayOnClose", "setTestPlan", "setTestChannel", "setTheme",
   "handleZoomFactor", "setAutoUpdate", "select", "hasWritePermission",
   "resolvePath", "isPathInside", "setAppDataPath", "getDataPathFromArgs",
   "copy", "setStopQuitApp", "flushAppData", "isNotEmptyDir", "relaunchApp",
   "openWebsite", "getCacheSize", "clearCache", "logToMain", "setFullScreen",
   "isFullScreen", "getSystemFonts", "mockCrashRenderProcess", "mac",
   "notification", "system", "devTools", "zip", "backup", "file", "fs",
   "export", "obsidian", "openPath", "shortcuts", "knowledgeBase", "memory",
   "window", "fileService", "selectionMenu", "vertexAI", "ovms", "config",
   "miniWindow", "aes", "mcp", "python", "shell", "copilot", "cherryin",
   "isBinaryExist", "getBinaryPath", "installUVBinary", "installBunBinary",
   "installOvmsBinary", "protocol", "externalApps", "nutstore",
   "searchService", "webview", "storeSync", "selection", "agentTools",
   "quoteToMainWindow", "setDisableHardwareAcceleration",
   "setUseSystemTitleBar", "trace", "anthropic_oauth", "codeTools", "ocr",
   "cherryai", "windowControls", "apiServer", "claudeCodePlugin",
   "localTransfer", "openclaw", "analytics", "drome"]

/-- Membership test of `prop in target` for the façade object. -/
def apiHasKey (prop : String) : Bool := apiKeys.contains prop

/-- A stand-in produced by `createNotImplementedProxy(path)`: a callable,
navigable proxy remembering the accessed path. -/
structure StandIn where
  path : List String
deriving DecidableEq, Repr

/-- The name baked into a stand-in: `window.api.${path.join('.')}`. -/
def standInName (path : List String) : String :=
  "window.api." ++ String.intercalate "." path

/-- The `get` trap of a stand-in:
```
get(_target, prop) {
  if (prop === 'then' || prop === 'catch' || prop === 'finally') return undefined
  if (prop === Symbol.toStringTag) return 'NotImplemented'
  return createNotImplementedProxy([...path, String(prop)])
}
```
`none` is the `undefined` answer for the promise-introspection keys
(`Symbol.toStringTag`, being a symbol, is not a string property and is
outside this map). -/
def standInGet (s : StandIn) (prop : String) : Option StandIn :=
  if prop = "then" ∨ prop = "catch" ∨ prop = "finally" then none
  else some { path := s.path ++ [prop] }

/-- The `apply` trap of a stand-in (calling it at any depth):
`Promise.reject(new Error("Not implemented: " + name))`. -/
def standInApply (s : StandIn) : Except String Value :=
  Except.error ("Not implemented: " ++ standInName s.path)

/-- Result of one property access on the `createApiProxy` wrapper:
either the façade's own member (passed through by `Reflect.get`) or a
fresh stand-in rooted at the missing key. -/
inductive ProxyGet where
  | real (prop : String)
  | missing (s : StandIn)
deriving DecidableEq, Repr

/-- The `get` trap of `createApiProxy`:
```
get(target, prop, receiver) {
  if (prop in target) return Reflect.get(target, prop, receiver)
  return createNotImplementedProxy([String(prop)])
}
``` -/
def apiProxyGet (hasKey : String → Bool) (prop : String) : ProxyGet :=
  if hasKey prop then ProxyGet.real prop else ProxyGet.missing { path := [prop] }

/-- Navigate a stand-in through a sequence of further property accesses. -/
def navigateStandIn (s : StandIn) : List String → Option StandIn
  | [] => some s
  | prop :: rest =>
    match standInGet s prop with
    | none => none
    | some s' => navigateStandIn s' rest

/-! ## File-drop path resolution (`getPathForFile` and the drop queue) -/

/-- A DOM `File`-like object as `getPathForFile` inspects it: `path` holds
its direct `path` property when that is a string (`typeof direct === 'string'`;
a missing or non-string property is `none`). -/
structure FileLike where
  path : Option String
deriving DecidableEq, Repr

/-- `getPathForFile` from `createWindowApi`:
```
const getPathForFile = (file) => {
  const direct = file?.path
  if (typeof direct === 'string') return direct
  const queued = window.__DROME_FILE_DROP_QUEUE__?.shift()
  return typeof queued === 'string' ? queued : ''
}
```
The process-wide queue is passed and returned explicitly; `shift` pops the
front. -/
def getPathForFile (file : FileLike) (queue : List String) :
    String × List String :=
  match file.path with
  | some direct => (direct, queue)
  | none =>
    match queue with
    | [] => ("", [])
    | queued :: rest => (queued, rest)

/-- The drop-queue feed in `bridge/boot.ts`: a `tauri://file-drop` event
appends its (string) paths at the back of the queue. -/
def pushDropPaths (queue : List String) (paths : List String) : List String :=
  queue ++ paths

/-- `tauri://file-drop-cancelled` clears the queue. -/
def clearDropQueue (_queue : List String) : List String := []

/-- n successive `getPathForFile` calls on the same file object, threading
the queue; returns the list of results and the final queue. -/
def drainPaths (file : FileLike) : Nat → List String → List String × List String
  | 0, queue => ([], queue)
  | n + 1, queue =>
    let (r, queue') := getPathForFile file queue
    let (rs, queueF) := drainPaths file n queue'
    (r :: rs, queueF)

end Drome

namespace Drome

theorem linv_init : LInv initL := by
  constructor <;> simp [initL, LInv, onceBit]

theorem linv_init_once : LInv initOnceL := by
  constructor <;> simp [initOnceL, initL, LInv, onceBit]

set_option maxHeartbeats 2000000 in
theorem linv_step (a : LAct) (s : LState) (h : LInv s) : LInv (lstep a s) := by
  obtain ⟨p, rem, hU, inL, bus, conts, lc, uc, io⟩ := s
  cases a <;> cases p <;> cases rem <;> cases hU <;> cases inL <;> cases bus <;>
    cases io <;>
    simp_all [LInv, lstep, removeL, resolveL, rejectL, deliverL, runCont,
      callUnlisten, onceBit] <;>
    omega

theorem linv_foldl (acts : List LAct) (s : LState) (h : LInv s) :
    LInv (acts.foldl (fun st a => lstep a st) s) := by
  induction acts generalizing s with
  | nil => simpa using h
  | cons a rest ih => exact ih (lstep a s) (linv_step a s h)

theorem linv_run (acts : List LAct) : LInv (lrun acts) :=
  linv_foldl acts initL linv_init

theorem linv_run_once (acts : List LAct) : LInv (lrunOnce acts) :=
  linv_foldl acts initOnceL linv_init_once

theorem runCont_isOnce (c : Cont) (s : LState) :
    (runCont c s).isOnce = s.isOnce := by
  cases c
  · by_cases hrem : s.removed <;> simp [runCont, callUnlisten, hrem]
  · rfl

theorem foldl_runCont_isOnce (conts : List Cont) (s : LState) :
    (conts.foldl (fun st c => runCont c st) s).isOnce = s.isOnce := by
  induction conts generalizing s with
  | nil => rfl
  | cons c rest ih => rw [List.foldl_cons, ih, runCont_isOnce]

theorem lstep_isOnce (a : LAct) (s : LState) :
    (lstep a s).isOnce = s.isOnce := by
  cases a
  · by_cases hIn : s.inList <;> by_cases hU : s.hasUnlisten <;>
      simp [lstep, removeL, callUnlisten, hIn, hU]
  · by_cases hp : s.promise = PromiseState.pending <;>
      simp [lstep, resolveL, hp, foldl_runCont_isOnce]
  · by_cases hp : s.promise = PromiseState.pending <;>
      simp [lstep, rejectL, hp]
  · by_cases hB : s.busActive <;> by_cases hO : s.isOnce <;>
      simp [lstep, deliverL, hB, hO]

theorem foldl_lstep_isOnce (acts : List LAct) (s : LState) :
    (acts.foldl (fun st a => lstep a st) s).isOnce = s.isOnce := by
  induction acts generalizing s with
  | nil => rfl
  | cons a rest ih => rw [List.foldl_cons, ih, lstep_isOnce]

theorem lrun_isOnce (acts : List LAct) : (lrun acts).isOnce = false :=
  foldl_lstep_isOnce acts initL

theorem lrunOnce_isOnce (acts : List LAct) : (lrunOnce acts).isOnce = true :=
  foldl_lstep_isOnce acts initOnceL

theorem unlisten_le (s : LState) (h : LInv s) :
    s.unlistenCalls ≤ 2 + onceBit s := by
  obtain ⟨h0, h1, h2, h3, h4⟩ := h
  cases hp : s.promise with
  | pending => have := (h2 hp).2.1; omega
  | resolvedP =>
    by_cases hrem : s.removed = true
    · have := ((h3 hp).2 hrem).1.2; omega
    · have := (h1 (by simpa using hrem)).2; omega
  | rejectedP => have := (h4 hp).2.2.1; omega

/-- Claim C1 (counterexample): the claim says the listener is invoked zero
times for events delivered after the removal request.  With the in-memory
bus of `bridge/boot.ts` (registration is synchronous, the subscription
promise settles later), call the remover immediately after `on` — the
record is marked removed — and then emit one event while the promise is
still pending: the handler `(e) => listener(null, e.payload)` has no
`removed` guard, so the listener fires once, not zero times. -/
theorem C1_counterexample :
    (lrun [LAct.removeA]).removed = true ∧
    ¬ (lrun [LAct.removeA, LAct.deliverA]).listenerCalls = 0 := by
  decide

/-- Claim C1 (amended): if the remover is called before the subscription
promise settles, the underlying unsubscribe handle is still invoked once
the promise resolves — the subscription does not leak — though the
listener may still fire for events delivered between the removal request
and the unsubscribe handle running.  Proved for every action sequence:
whenever the record is removed and the promise has resolved, the native
unsubscribe handle has been invoked at least once. -/
theorem C1_no_leak (acts : List LAct)
    (hrem : (lrun acts).removed = true)
    (hres : (lrun acts).promise = PromiseState.resolvedP) :
    1 ≤ (lrun acts).unlistenCalls := by
  have h := linv_run acts
  exact ((h.2.2.2.1 hres).2 hrem).1.1

/-- Witness for `C1_no_leak`: remover called while pending, then the
promise resolves — the unsubscribe handle has run. -/
theorem C1_no_leak_witness :
    1 ≤ (lrun [LAct.removeA, LAct.resolveA]).unlistenCalls :=
  C1_no_leak [LAct.removeA, LAct.resolveA] (by decide) (by decide)

/-- Claim C3 (counterexample): the claim says the native unsubscribe handle
is invoked exactly once in total, in any state of the subscription.  Calling
the remover once while the subscription promise is pending queues
`rec.unlistenPromise.then((u) => u())` in `removeListener`, while the
continuation attached by `on` also calls `unlisten()` because `rec.removed`
is set — so when the promise resolves the handle is invoked twice. -/
theorem C3_counterexample :
    (lrun [LAct.removeA, LAct.resolveA]).unlistenCalls = 2 ∧
    ¬ (lrun [LAct.removeA, LAct.resolveA]).unlistenCalls = 1 := by
  decide

/-- Claim C3 (amended): calling the remover N ≥ 1 times has the same effect
as calling it once (the record leaves the array on the first call, so later
calls find no match and are no-ops), and no error is raised (every native
unsubscribe call site is wrapped in `try/catch` or `.catch`).  But the
native unsubscribe handle is not invoked exactly once in total.  For a
listener registered via `on`, it is invoked exactly once when removal is
first requested after the subscription promise resolved and exactly twice
when first requested while it was pending, and never more than twice.  For
a listener registered via `once` (browser adapter), the first delivery
itself invokes the handle through the `once` wrapper, so a delivery
followed by removal after resolution totals two invocations, a delivery
and a removal both while the promise is pending total three once it
resolves, and the total never exceeds three. -/
theorem C3_amended :
    (∀ s : LState, removeL (removeL s) = removeL s) ∧
    (∀ acts : List LAct, (lrun acts).unlistenCalls ≤ 2) ∧
    (∀ acts : List LAct, (lrunOnce acts).unlistenCalls ≤ 3) ∧
    (lrun [LAct.resolveA, LAct.removeA]).unlistenCalls = 1 ∧
    (lrun [LAct.removeA, LAct.resolveA]).unlistenCalls = 2 ∧
    (lrunOnce [LAct.resolveA, LAct.deliverA, LAct.removeA]).unlistenCalls = 2 ∧
    (lrunOnce [LAct.deliverA, LAct.removeA, LAct.resolveA]).unlistenCalls = 3 := by
  refine ⟨?_, ?_, ?_, by decide, by decide, by decide, by decide⟩
  · intro s
    by_cases hIn : s.inList
    · by_cases hU : s.hasUnlisten <;>
        simp [removeL, hIn, hU, callUnlisten]
    · simp [removeL, hIn]
  · intro acts
    have h := unlisten_le (lrun acts) (linv_run acts)
    have hio := lrun_isOnce acts
    simp [onceBit, hio] at h
    omega
  · intro acts
    have h := unlisten_le (lrunOnce acts) (linv_run_once acts)
    have hio := lrunOnce_isOnce acts
    simp [onceBit, hio] at h
    omega

/-- Claim C10: removal matches by `(channel, callback)` value, not by
registration.  Register the same callback twice on the same channel, let
both subscription promises resolve, then call the remover (either returned
remover runs the same `off(channel, listener)`): both records are marked
removed and dropped from the array, and both underlying unsubscribe
handles are invoked. -/
theorem C10_remove_both (c : String) (l : Nat) :
    (removeListenerOp c l
        (resolveOp 1 (resolveOp 0 (onOp c l (onOp c l ([] : ShimState)))))).map
        (fun r => (r.st.removed, r.st.inList, r.st.unlistenCalls))
      = [(true, false, 1), (true, false, 1)] := by
  simp [onOp, removeListenerOp, resolveOp, resolveL, removeL, initL, runCont,
    callUnlisten]

/-- Claim C2: for every fallback-wrapped façade method and every argument
list, if the underlying transport invoke rejects for any reason, the method
resolves (never rejects) with that method's statically declared default:
`checkForUpdate` with `{ updateInfo: null }`, `backup.listWebdavFiles` with
`[]`, `mcp.listPrompts` with `[]`. -/
theorem C2_fallback_on_rejection (invoke : Transport) (e : String)
    (webdavConfig server : Value) :
    (invoke IpcChannel.App_CheckForUpdate [] = Except.error e →
      checkForUpdate invoke = Value.vObj [("updateInfo", Value.vNull)]) ∧
    (invoke IpcChannel.Backup_ListWebdavFiles [webdavConfig] = Except.error e →
      backupListWebdavFiles invoke webdavConfig = Value.vArr []) ∧
    (invoke IpcChannel.Mcp_ListPrompts [server] = Except.error e →
      mcpListPrompts invoke server = Value.vArr []) := by
  refine ⟨?_, ?_, ?_⟩ <;> intro h <;>
    simp [checkForUpdate, backupListWebdavFiles, mcpListPrompts, safeInvoke, h]

/-- Witness for `C2_fallback_on_rejection`: under a transport that always
rejects, `checkForUpdate` resolves with its declared default. -/
theorem C2_witness :
    checkForUpdate (fun _ _ => Except.error "host unreachable")
      = Value.vObj [("updateInfo", Value.vNull)] :=
  (C2_fallback_on_rejection (fun _ _ => Except.error "host unreachable")
      "host unreachable" Value.vNull Value.vNull).1 rfl

/-- Claim C9: fallback substitution also applies to successful transport
results — `safeInvoke` returns `result ?? fallback`, so a resolved `null`
or `undefined` is replaced by the declared default; in particular under the
browser no-host adapter (whose invoke always resolves `undefined`) every
fallback-wrapped method resolves to its declared default. -/
theorem C9_nullish_fallback :
    (∀ (invoke : Transport) (channel : IpcChannel) (fallback : Value)
        (args : List Value) (v : Value),
       invoke channel args = Except.ok v → v.isNullish = true →
       safeInvoke invoke channel fallback args = fallback) ∧
    checkForUpdate browserInvoke = Value.vObj [("updateInfo", Value.vNull)] ∧
    (∀ webdavConfig, backupListWebdavFiles browserInvoke webdavConfig
       = Value.vArr []) ∧
    (∀ server, mcpListPrompts browserInvoke server = Value.vArr []) := by
  refine ⟨?_, rfl, fun _ => rfl, fun _ => rfl⟩
  intro invoke channel fallback args v hok hnull
  simp [safeInvoke, hok, hnull]

/-- Witness for `C9_nullish_fallback`: the browser adapter resolves
`undefined`, and `safeInvoke` substitutes the declared default. -/
theorem C9_witness :
    safeInvoke browserInvoke IpcChannel.Config_Get (Value.vBool false) []
      = Value.vBool false :=
  C9_nullish_fallback.1 browserInvoke IpcChannel.Config_Get
    (Value.vBool false) [] Value.vUndefined rfl rfl

/-- Claim C5: `mcp.listTools(server, spanCtx)` with a defined span context
issues exactly one transport invoke whose final argument is
`{ type: 'trace', context: spanCtx }` appended after the ordinary
arguments; without a span context the invoke carries only the ordinary
arguments and no such trailing argument. -/
theorem C5_trace_propagation (server context : Value) :
    mcpListToolsCall server (some context)
      = { channel := IpcChannel.Mcp_ListTools,
          args := [server, traceArg context] } ∧
    (mcpListToolsCall server (some context)).args.getLast?
      = some (traceArg context) ∧
    mcpListToolsCall server none
      = { channel := IpcChannel.Mcp_ListTools, args := [server] } :=
  ⟨rfl, rfl, rfl⟩

/-- Claim C7: a plain pass-through façade method forwards exactly the pair
(channel, argument list) through `IpcRendererShim.invoke` to the adapter's
invoke, and its result — resolution or rejection — is returned unmodified:
shown for `getAppInfo`, `file.delete` and `config.get`. -/
theorem C7_plain_passthrough (impl : Transport) (fileId key : Value) :
    getAppInfo (shimInvoke impl) = impl IpcChannel.App_Info [] ∧
    fileDelete (shimInvoke impl) fileId = impl IpcChannel.File_Delete [fileId] ∧
    configGet (shimInvoke impl) key = impl IpcChannel.Config_Get [key] :=
  ⟨rfl, rfl, rfl⟩

theorem navigateStandIn_ok (props : List String) (s : StandIn)
    (h : ∀ q ∈ props, q ≠ "then" ∧ q ≠ "catch" ∧ q ≠ "finally") :
    navigateStandIn s props = some { path := s.path ++ props } := by
  induction props generalizing s with
  | nil => simp [navigateStandIn]
  | cons p rest ih =>
    have hp := h p (by simp)
    have hrest := ih { path := s.path ++ [p] } (fun q hq => h q (by simp [hq]))
    simp [navigateStandIn, standInGet, hp.1, hp.2.1, hp.2.2, hrest,
      List.append_assoc]

/-- Claim C4: accessing a property missing from the façade through the
capability proxy yields a stand-in, and calling it at any depth (through
further accesses avoiding the promise-introspection keys, which the claim
itself states are `undefined`) rejects with a message carrying the full
dotted access path — concretely, `proxy.unknownGroup.unknownMethod(...)`
rejects with a message containing the literal `unknownGroup.unknownMethod`;
and a stand-in's `then`, `catch` and `finally` properties are `undefined`
rather than further stand-ins, so awaiting it neither hangs nor throws. -/
theorem C4_capability_proxy :
    apiHasKey "unknownGroup" = false ∧
    apiProxyGet apiHasKey "unknownGroup"
      = ProxyGet.missing { path := ["unknownGroup"] } ∧
    navigateStandIn { path := ["unknownGroup"] } ["unknownMethod"]
      = some { path := ["unknownGroup", "unknownMethod"] } ∧
    standInApply { path := ["unknownGroup", "unknownMethod"] }
      = Except.error
          ("Not implemented: window.api." ++ "unknownGroup.unknownMethod") ∧
    (∀ (prop : String) (props : List String),
       apiHasKey prop = false →
       (∀ q ∈ prop :: props, q ≠ "then" ∧ q ≠ "catch" ∧ q ≠ "finally") →
       apiProxyGet apiHasKey prop = ProxyGet.missing { path := [prop] } ∧
       navigateStandIn { path := [prop] } props = some { path := prop :: props } ∧
       standInApply { path := prop :: props }
         = Except.error ("Not implemented: "
             ++ ("window.api." ++ String.intercalate "." (prop :: props)))) ∧
    (∀ s : StandIn, standInGet s "then" = none ∧ standInGet s "catch" = none ∧
       standInGet s "finally" = none) := by
  refine ⟨by decide, by decide, by decide, rfl, ?_, ?_⟩
  · intro prop props hmiss hgood
    refine ⟨by simp [apiProxyGet, hmiss], ?_, rfl⟩
    simpa using navigateStandIn_ok props { path := [prop] }
      (fun q hq => hgood q (by simp [hq]))
  · intro s
    refine ⟨?_, ?_, ?_⟩ <;> simp [standInGet]

/-- Witness for `C4_capability_proxy`: the general clause applied to the
concrete missing path `unknownGroup.unknownMethod`. -/
theorem C4_witness :
    apiProxyGet apiHasKey "unknownGroup"
      = ProxyGet.missing { path := ["unknownGroup"] } ∧
    navigateStandIn { path := ["unknownGroup"] } ["unknownMethod"]
      = some { path := ["unknownGroup", "unknownMethod"] } ∧
    standInApply { path := ["unknownGroup", "unknownMethod"] }
      = Except.error ("Not implemented: "
          ++ ("window.api."
              ++ String.intercalate "." ["unknownGroup", "unknownMethod"])) :=
  C4_capability_proxy.2.2.2.2.1 "unknownGroup" ["unknownMethod"]
    (by decide) (by decide)

/-- Claim C6: with no string-valued direct path property, N successive
`getPathForFile` calls against a queue holding [p1, …, pN] return
p1, …, pN in FIFO order and the (N+1)-th call returns the empty string,
leaving the queue empty; with a string direct path property, that path is
returned and the queue is untouched. -/
theorem C6_fifo_paths (ps queue : List String) (direct : String) :
    drainPaths { path := none } (ps.length + 1) ps = (ps ++ [""], []) ∧
    getPathForFile { path := some direct } queue = (direct, queue) := by
  refine ⟨?_, rfl⟩
  induction ps with
  | nil => rfl
  | cons p rest ih => simpa [drainPaths, getPathForFile] using ih

end Drome
